import Mathlib

/-!
Shallow embedding of the FunctionalPlus maybe header
(src/include/fplus/maybe.h) and proofs of its specification's claims.

The C++ class `maybe<T>` owns a single heap slot (`std::unique_ptr<T> ptr_`)
that either holds one `T` (the Just state) or is null (the Nothing state).
Value-semantically that slot is an `Option T`, which is how the structure
below represents it.  The heap itself only matters for the copy-assignment
aliasing claim, which is settled against an explicit little heap model
further down.

Outcomes of the `assert` in `maybe::unsafe_get_just` (the program aborts
when the assertion fails) are modelled by the `Crashes` result type: a call
either crashes or returns a value, and an aborted call never produces a
result value.
-/

namespace fplus

/-- Result of running a piece of code whose assertion may fail: either the
process aborts (`crash`) or the code returns a value (`ok`). -/
inductive Crashes (α : Type) where
  | crash : Crashes α
  | ok : α → Crashes α
deriving DecidableEq

/-- The optional container: `ptr_` models the `std::unique_ptr<T>` member of
`class maybe` — `none` is a null pointer (Nothing), `some v` a slot holding
`v` (Just). -/
structure maybe (T : Type) where
  ptr_ : Option T
deriving DecidableEq

/-- Member `maybe::is_just`: `static_cast<bool>(ptr_)`. -/
def maybe.is_just {T : Type} (m : maybe T) : Bool :=
  m.ptr_.isSome

/-- Member `maybe::is_nothing`: `!is_just()`. -/
def maybe.is_nothing {T : Type} (m : maybe T) : Bool :=
  !m.is_just

/-- Member `maybe::unsafe_get_just`: `assert(is_just()); return *ptr_;`.
On a Nothing the assertion fails and the program aborts, so the run is
modelled as `Crashes.crash`; on a Just it returns the held value. -/
def maybe.unsafe_get_just {T : Type} (m : maybe T) : Crashes T :=
  match m.ptr_ with
  | Option.some v => Crashes.ok v
  | Option.none => Crashes.crash

/-- Dereference of `ptr_` under the knowledge that the container is Just:
the value `maybe::unsafe_get_just` returns when its assertion holds.  The
combinators below only call `unsafe_get_just` behind an `is_just` /
`is_nothing` test, which is the proof handed to this accessor; the lemma
`fplus.unsafe_get_just_ok` ties the two together. -/
def maybe.get_just {T : Type} (m : maybe T) (h : m.is_just = true) : T :=
  m.ptr_.get h

/-- Free function `is_just`. -/
def is_just {T : Type} (m : maybe T) : Bool :=
  m.is_just

/-- Free function `is_nothing`: `!is_just(maybe)`. -/
def is_nothing {T : Type} (m : maybe T) : Bool :=
  !is_just m

/-- Free function `unsafe_get_just`: returns `maybe.unsafe_get_just()` by
value. -/
def unsafe_get_just {T : Type} (m : maybe T) : Crashes T :=
  m.unsafe_get_just

/-- Free function `just_with_default`: the held value if Just, else the
default. -/
def just_with_default {T : Type} (defaultValue : T) (m : maybe T) : T :=
  if h : is_just m = true then m.get_just h else defaultValue

/-- Free function `throw_on_nothing`: `if (is_nothing(maybe)) throw e;
return unsafe_get_just(maybe);`.  The C++ exception is modelled by
`Except`: `Except.error e` is the thrown exception propagating to the
caller. -/
def throw_on_nothing {E T : Type} (e : E) (m : maybe T) : Except E T :=
  if h : is_nothing m = true then Except.error e
  else Except.ok (m.get_just (by
    simp only [is_nothing, maybe.is_nothing, is_just, Bool.not_eq_true',
      Bool.not_eq_false] at h
    exact h))

/-- Free function `just`: wraps a value as a Just. -/
def just {T : Type} (val : T) : maybe T :=
  ⟨Option.some val⟩

/-- Free function `nothing`: the empty container. -/
def nothing {T : Type} : maybe T :=
  ⟨Option.none⟩

/-- Operator `==` on `maybe<T>`: if both are Just, compare the held values
with T's own equality (modelled by the `BEq` instance); otherwise equal iff
the two `is_just` flags agree. -/
def maybe_eq {T : Type} [BEq T] (x y : maybe T) : Bool :=
  if h : (is_just x && is_just y) = true then
    x.get_just (by exact (Bool.and_eq_true _ _).mp h |>.1)
      == y.get_just (by exact (Bool.and_eq_true _ _).mp h |>.2)
  else is_just x == is_just y

/-- Operator `!=` on `maybe<T>`: `!(x == y)`. -/
def maybe_neq {T : Type} [BEq T] (x y : maybe T) : Bool :=
  !(maybe_eq x y)

/-- Free function `lift_maybe`: the returned closure maps a Just through
`f` and passes a Nothing along. -/
def lift_maybe {A B : Type} (f : A → B) : maybe A → maybe B :=
  fun m =>
    if h : is_just m = true then just (f (m.get_just h))
    else nothing

/-- Free function `and_then_maybe`, two-function overload (monadic bind):
the returned closure runs `f`, and on a Just feeds the held value to `g`;
on a Nothing it returns a Nothing without touching `g`. -/
def and_then_maybe {X Y Z : Type} (f : X → maybe Y) (g : Y → maybe Z) :
    X → maybe Z :=
  fun x =>
    let maybeB := f x
    if h : is_just maybeB = true then g (maybeB.get_just h)
    else nothing

/-- Free function `and_then_maybe`, three-function overload:
`return and_then_maybe(and_then_maybe(f, g), h);`. -/
def and_then_maybe3 {X Y Z W : Type} (f : X → maybe Y) (g : Y → maybe Z)
    (h : Z → maybe W) : X → maybe W :=
  and_then_maybe (and_then_maybe f g) h

/-- Free function `and_then_maybe`, four-function overload:
`return and_then_maybe(and_then_maybe(and_then_maybe(f, g), h), i);`. -/
def and_then_maybe4 {X Y Z W V : Type} (f : X → maybe Y) (g : Y → maybe Z)
    (h : Z → maybe W) (i : W → maybe V) : X → maybe V :=
  and_then_maybe (and_then_maybe (and_then_maybe f g) h) i

/-- Free function `flatten_maybe`: Nothing if the outer container is
Nothing, else the inner container. -/
def flatten_maybe {T : Type} (maybe_maybe : maybe (maybe T)) : maybe T :=
  if h : is_nothing maybe_maybe = true then nothing
  else maybe_maybe.get_just (by
    simp only [is_nothing, maybe.is_nothing, is_just, Bool.not_eq_true',
      Bool.not_eq_false] at h
    exact h)

/-! Helper lemmas shared by the claim proofs. -/

@[simp] theorem is_just_just {T : Type} (v : T) : is_just (just v) = true :=
  rfl

@[simp] theorem is_just_nothing {T : Type} :
    is_just (nothing : maybe T) = false :=
  rfl

@[simp] theorem get_just_just {T : Type} (v : T) (h : (just v).is_just = true) :
    (just v).get_just h = v :=
  rfl

/-- Every container is Nothing or wraps exactly one value. -/
theorem maybe_cases {T : Type} (m : maybe T) :
    m = nothing ∨ ∃ v, m = just v := by
  obtain ⟨p⟩ := m
  cases p with
  | none => exact Or.inl rfl
  | some v => exact Or.inr ⟨v, rfl⟩

/-- On a Just container the member unsafe_get_just returns (does not crash),
and the value it returns is the dereference of the slot. -/
theorem unsafe_get_just_ok {T : Type} (m : maybe T) (h : m.is_just = true) :
    m.unsafe_get_just = Crashes.ok (m.get_just h) := by
  obtain ⟨p⟩ := m
  cases p with
  | none => simp [maybe.is_just] at h
  | some v => rfl

theorem and_then_maybe_of_nothing {X Y Z : Type} (f : X → maybe Y)
    (g : Y → maybe Z) (x : X) (hfx : f x = nothing) :
    and_then_maybe f g x = nothing := by
  simp [and_then_maybe, hfx]

theorem and_then_maybe_of_just {X Y Z : Type} (f : X → maybe Y)
    (g : Y → maybe Z) (x : X) (y : Y) (hfx : f x = just y) :
    and_then_maybe f g x = g y := by
  simp [and_then_maybe, hfx]

@[simp] theorem lift_maybe_just {A B : Type} (f : A → B) (v : A) :
    lift_maybe f (just v) = just (f v) :=
  rfl

@[simp] theorem lift_maybe_nothing {A B : Type} (f : A → B) :
    lift_maybe f (nothing : maybe A) = (nothing : maybe B) :=
  rfl

/-! Claim theorems. -/

/-- Claim C1: for every f, g and input x, the function composed by
and_then_maybe returns Nothing whenever f x is Nothing — and g is then never
invoked, witnessed by the result being independent of g — and returns g y
whenever f x is Just y. -/
theorem and_then_maybe_bind_spec {X Y Z : Type} (f : X → maybe Y)
    (g : Y → maybe Z) (x : X) :
    (f x = nothing →
      and_then_maybe f g x = nothing ∧
      ∀ g' : Y → maybe Z, and_then_maybe f g x = and_then_maybe f g' x) ∧
    (∀ y, f x = just y → and_then_maybe f g x = g y) := by
  refine ⟨fun hfx => ⟨and_then_maybe_of_nothing f g x hfx, fun g' => ?_⟩,
    fun y hfy => and_then_maybe_of_just f g x y hfy⟩
  rw [and_then_maybe_of_nothing f g x hfx, and_then_maybe_of_nothing f g' x hfx]

/-- Claim C1 witness: the composed function at concrete inputs, both for a
first stage producing Nothing and for one producing a Just. -/
theorem and_then_maybe_bind_spec_witness :
    and_then_maybe (fun _ : Nat => (nothing : maybe Nat))
      (fun y => just (y + 1)) 0 = nothing ∧
    and_then_maybe (fun n : Nat => just (n * 2)) (fun y => just (y + 1)) 5
      = just 11 :=
  ⟨((and_then_maybe_bind_spec (fun _ : Nat => (nothing : maybe Nat))
      (fun y => just (y + 1)) 0).1 rfl).1,
    (and_then_maybe_bind_spec (fun n : Nat => just (n * 2))
      (fun y => just (y + 1)) 5).2 10 rfl⟩

/-- Claim C2: lift_maybe f maps Just v to Just (f v), and maps Nothing to
Nothing with a result independent of f (f is never invoked). -/
theorem lift_maybe_map_spec {A B : Type} (f : A → B) (m : maybe A) :
    (∀ v, m = just v → lift_maybe f m = just (f v)) ∧
    (m = nothing →
      lift_maybe f m = nothing ∧
      ∀ g : A → B, lift_maybe f m = lift_maybe g m) := by
  refine ⟨fun v hv => ?_, fun hn => ?_⟩
  · rw [hv]; exact lift_maybe_just f v
  · rw [hn]; exact ⟨lift_maybe_nothing f, fun g => rfl⟩

/-- Claim C2 witness: the lifted function at a Just and at a Nothing. -/
theorem lift_maybe_map_spec_witness :
    lift_maybe (fun n : Nat => n + 1) (just 4) = just 5 ∧
    lift_maybe (fun n : Nat => n + 1) (nothing : maybe Nat) = nothing :=
  ⟨(lift_maybe_map_spec (fun n : Nat => n + 1) (just 4)).1 4 rfl,
    ((lift_maybe_map_spec (fun n : Nat => n + 1)
      (nothing : maybe Nat)).2 rfl).1⟩

/-- Claim C3: unsafe_get_just on a Just returns the held value; on a
Nothing the assertion fails and the call aborts (models as a crash), never
producing any result value. -/
theorem unsafe_get_just_contract {T : Type} (v : T) :
    unsafe_get_just (just v) = Crashes.ok v ∧
    unsafe_get_just (nothing : maybe T) = Crashes.crash ∧
    ∀ w : T, unsafe_get_just (nothing : maybe T) ≠ Crashes.ok w := by
  refine ⟨rfl, rfl, fun w h => ?_⟩
  simp [unsafe_get_just, maybe.unsafe_get_just, nothing] at h

/-- Claim C3 witness: the accessor evaluated on concrete containers. -/
theorem unsafe_get_just_contract_witness :
    unsafe_get_just (just (42 : Nat)) = Crashes.ok 42 ∧
    unsafe_get_just (nothing : maybe Nat) ≠ Crashes.ok 0 :=
  ⟨(unsafe_get_just_contract (42 : Nat)).1,
    (unsafe_get_just_contract (42 : Nat)).2.2 0⟩

/-- Claim C4: throw_on_nothing returns the held value without raising on a
Just, and raises exactly the caller-supplied error e when and only when the
container is Nothing. -/
theorem throw_on_nothing_spec {E T : Type} (e : E) (m : maybe T) :
    (∀ v, m = just v → throw_on_nothing e m = Except.ok v) ∧
    (m = nothing → throw_on_nothing e m = Except.error e) ∧
    (∀ err, throw_on_nothing e m = Except.error err → err = e ∧ m = nothing) := by
  refine ⟨fun v hv => ?_, fun hn => ?_, fun err herr => ?_⟩
  · rw [hv]; rfl
  · rw [hn]; rfl
  · rcases maybe_cases m with hn | ⟨v, hv⟩
    · subst hn
      refine ⟨?_, rfl⟩
      have : (Except.error e : Except E T) = Except.error err := herr
      exact (Except.error.injEq _ _ |>.mp this.symm)
    · subst hv
      exact absurd herr (by simp [throw_on_nothing, is_nothing, maybe.is_nothing,
        is_just, maybe.is_just, just, maybe.get_just])

/-- Claim C4 witness: extraction from a Just returns the value; from a
Nothing it raises the supplied error. -/
theorem throw_on_nothing_spec_witness :
    throw_on_nothing "empty" (just (7 : Nat)) = Except.ok 7 ∧
    throw_on_nothing "empty" (nothing : maybe Nat) = Except.error "empty" :=
  ⟨(throw_on_nothing_spec "empty" (just (7 : Nat))).1 7 rfl,
    (throw_on_nothing_spec "empty" (nothing : maybe Nat)).2.1 rfl⟩

/-- Claim C5: flatten_maybe returns Nothing when the outer container is
Nothing and otherwise returns the inner container unchanged; in particular
on Just (Just v), Just Nothing and Nothing it gives Just v, Nothing and
Nothing. -/
theorem flatten_maybe_spec {T : Type} (v : T) (inner : maybe T) :
    flatten_maybe (just inner) = inner ∧
    flatten_maybe (nothing : maybe (maybe T)) = (nothing : maybe T) ∧
    flatten_maybe (just (just v)) = just v ∧
    flatten_maybe (just (nothing : maybe T)) = (nothing : maybe T) :=
  ⟨rfl, rfl, rfl, rfl⟩

/-- Claim C6: operator == holds iff both containers are Nothing, or both
are Just with values equal by T's own equality; operator != is its logical
negation. -/
theorem maybe_eq_spec {T : Type} [BEq T] (x y : maybe T) :
    (maybe_eq x y = true ↔
      (x = nothing ∧ y = nothing) ∨
      ∃ vx vy, x = just vx ∧ y = just vy ∧ (vx == vy) = true) ∧
    maybe_neq x y = !(maybe_eq x y) := by
  refine ⟨?_, rfl⟩
  obtain ⟨p⟩ := x
  obtain ⟨q⟩ := y
  cases p <;> cases q <;>
    simp [maybe_eq, just, nothing, is_just, maybe.is_just, maybe.get_just]

/-- Claim C6 witness: the comparison operators at concrete containers. -/
theorem maybe_eq_spec_witness :
    maybe_neq (just (1 : Nat)) (just 2)
      = !(maybe_eq (just (1 : Nat)) (just 2)) :=
  (maybe_eq_spec (just (1 : Nat)) (just 2)).2

/-- Claim C7: lift_maybe satisfies the functor laws — lifting the identity
is the identity on containers, and lifting a composition equals composing
the lifted functions. -/
theorem lift_maybe_functor_laws {A B C : Type} (f : B → C) (g : A → B)
    (m : maybe A) :
    lift_maybe (fun a : A => a) m = m ∧
    lift_maybe (f ∘ g) m = lift_maybe f (lift_maybe g m) := by
  rcases maybe_cases m with hn | ⟨v, hv⟩ <;> subst_vars <;> exact ⟨rfl, rfl⟩

/-- Claim C8: just_with_default is total, returning the held value on a
Just and the supplied default on a Nothing. -/
theorem just_with_default_spec {T : Type} (d v : T) :
    just_with_default d (just v) = v ∧
    just_with_default d (nothing : maybe T) = d :=
  ⟨rfl, rfl⟩

/-- Claim C9: the three- and four-function overloads of and_then_maybe
agree pointwise with left-associative repeated application of the
two-function bind. -/
theorem and_then_maybe_chain_spec {X Y Z W V : Type} (f : X → maybe Y)
    (g : Y → maybe Z) (h : Z → maybe W) (i : W → maybe V) (x : X) :
    and_then_maybe3 f g h x = and_then_maybe (and_then_maybe f g) h x ∧
    and_then_maybe4 f g h i x
      = and_then_maybe (and_then_maybe (and_then_maybe f g) h) i x :=
  ⟨rfl, rfl⟩

/-!
Heap model for the copy-assignment claim.  `maybe::operator=` executes

    ptr_ = other.is_just() ? ptr_t(new T(other.unsafe_get_just())) : ptr_t();

In C++ the right-hand side is evaluated in full — for a Just `other` this
allocates a fresh cell copy-constructed from `*other.ptr_` — before
`unique_ptr::operator=(ptr_t&&)` runs, which only then frees the cell the
left-hand side previously owned.  The model below replays those steps in
that order on an explicit heap, for the aliased call `m = m` where `other`
is the very object being assigned. -/

/-- Heap of T-cells: a partial map from addresses to live contents, plus
the next fresh address.  Every address ever allocated is below next. -/
structure Heap (T : Type) where
  mem : Nat → Option T
  next : Nat

/-- Allocation (operator new plus T's copy constructor): stores the value
in the next fresh cell. -/
def Heap.alloc {T : Type} (h : Heap T) (v : T) : Heap T × Nat :=
  (⟨fun a => if a = h.next then Option.some v else h.mem a, h.next + 1⟩,
    h.next)

/-- Deallocation (operator delete): the cell is dead afterwards. -/
def Heap.dealloc {T : Type} (h : Heap T) (a : Nat) : Heap T :=
  ⟨fun x => if x = a then Option.none else h.mem x, h.next⟩

/-- Dereference: none models a read of a dead cell (undefined behavior). -/
def Heap.read {T : Type} (h : Heap T) (a : Nat) : Option T :=
  h.mem a

/-- Member maybe::operator= run on itself (`m = m`): `ptr_` is the object's
unique_ptr field (`none` = null).  Steps, in the source's evaluation order:
test `other.is_just()` (here: this object's own pointer); if Just, read
`*ptr_` and copy it into a freshly allocated cell; only then does the
unique_ptr assignment free the old cell and adopt the new one.  A read of a
dead cell would be undefined behavior, modelled as a crash. -/
def maybe.assign_self {T : Type} (h : Heap T) (ptr_ : Option Nat) :
    Crashes (Heap T × Option Nat) :=
  match ptr_ with
  | Option.some a =>
      match h.read a with
      | Option.some v =>
          let alloced := h.alloc v
          Crashes.ok ((alloced.1).dealloc a, Option.some alloced.2)
      | Option.none => Crashes.crash
  | Option.none => Crashes.ok (h, Option.none)

/-- Observable state of a maybe object: the held value, if any. -/
def obs {T : Type} (h : Heap T) (ptr_ : Option Nat) : Option T :=
  ptr_.bind h.read

/-- Claim C10: self-assignment is safe and state-preserving — on any valid
state (the owned cell, if any, is live and below the allocation frontier),
`m = m` completes without touching dead memory and leaves the observable
state unchanged, because the copy of the right-hand side's value is
constructed before the left-hand side's storage is released. -/
theorem assign_self_preserves {T : Type} (h : Heap T) (ptr_ : Option Nat)
    (hv : ∀ a, ptr_ = Option.some a →
      a < h.next ∧ (h.mem a).isSome = true) :
    ∃ h' p', maybe.assign_self h ptr_ = Crashes.ok (h', p') ∧
      obs h' p' = obs h ptr_ := by
  cases ptr_ with
  | none => exact ⟨h, Option.none, rfl, rfl⟩
  | some a =>
      obtain ⟨hlt, hsome⟩ := hv a rfl
      obtain ⟨v, hv'⟩ := Option.isSome_iff_exists.mp hsome
      refine ⟨(h.alloc v).1.dealloc a, Option.some h.next, ?_, ?_⟩
      · simp [maybe.assign_self, Heap.read, hv', Heap.alloc]
      · simp [obs, Heap.read, Heap.dealloc, Heap.alloc, hv',
          Nat.ne_of_gt hlt]

/-- Claim C10 witness: a one-cell heap holding 42; self-assignment keeps
the observable value 42. -/
theorem assign_self_preserves_witness :
    ∃ h' p',
      maybe.assign_self
        (⟨fun a => if a = 0 then Option.some (42 : Nat) else Option.none,
          1⟩ : Heap Nat) (Option.some 0) = Crashes.ok (h', p') ∧
      obs h' p'
        = obs (⟨fun a => if a = 0 then Option.some (42 : Nat)
            else Option.none, 1⟩ : Heap Nat) (Option.some 0) :=
  assign_self_preserves
    (⟨fun a => if a = 0 then Option.some (42 : Nat) else Option.none, 1⟩ :
      Heap Nat) (Option.some 0)
    (fun a ha => by
      cases ha
      exact ⟨Nat.zero_lt_one, rfl⟩)

end fplus
